import Mathlib

/-!
Shallow embedding of the `rusty-gba` core: the ARM7TDMI register bank /
mode model (`src/gba_cpu`) and the segmented memory subsystem
(`src/gba_mem`).  Rust `u32` values are modelled as `Nat` (all bitwise
operations used here stay below `2^32` when their inputs do); Rust
panics (`assert!`, `unreachable!`, failed `unwrap`) are modelled as
`none` / `Except.error`.
-/

namespace GBA

/-! ### Storage cell (`src/gba_cpu/register.rs`) -/

/-- 32-bit storage cell (`Register(RType)` with `RType = u32`). -/
structure Register where
  val : Nat
deriving DecidableEq, Repr

def Register.read (r : Register) : Nat := r.val

def Register.write (_ : Register) (v : Nat) : Register := ⟨v⟩

def Register.read_masked (r : Register) (mask : Nat) : Nat := r.val &&& mask

/-- `self.0 |= val & mask` -/
def Register.set (r : Register) (mask v : Nat) : Register :=
  ⟨r.val ||| (v &&& mask)⟩

/-- `self.0 &= !(val & mask)`; Rust `!` on `u32` is XOR with `0xFFFFFFFF`. -/
def Register.reset (r : Register) (mask v : Nat) : Register :=
  ⟨r.val &&& (0xFFFFFFFF ^^^ (v &&& mask))⟩

def Register.toggle (r : Register) (mask v : Nat) : Register :=
  ⟨r.val ^^^ (v &&& mask)⟩

/-! ### PSR bit masks and modes (`src/gba_cpu/arm_cpu.rs`) -/

def COND_MASK : Nat := 0xF0000000
def N_MASK : Nat := 0x80000000
def Z_MASK : Nat := 0x40000000
def C_MASK : Nat := 0x20000000
def V_MASK : Nat := 0x10000000
def I_MASK : Nat := 0x80
def F_MASK : Nat := 0x40
def T_MASK : Nat := 0x20
def M_MASK : Nat := 0x1F

def USER_MODE : Nat := 0b10000
def FIQ_MODE : Nat := 0b10001
def IRQ_MODE : Nat := 0b10010
def SV_MODE : Nat := 0b10011
def ABRT_MODE : Nat := 0b10111
def UDEF_MODE : Nat := 0b11011
def SYS_MODE : Nat := 0b11111

/-- The seven execution modes (`enum ARM7Mode`). -/
inductive ARM7Mode
  | User
  | FIQ
  | IRQ
  | Supervisor
  | Abort
  | Undefined
  | System
deriving DecidableEq, Repr

/-- The discriminant of each `ARM7Mode` variant (its 5-bit PSR encoding). -/
def ARM7Mode.val : ARM7Mode → Nat
  | .User => USER_MODE
  | .FIQ => FIQ_MODE
  | .IRQ => IRQ_MODE
  | .Supervisor => SV_MODE
  | .Abort => ABRT_MODE
  | .Undefined => UDEF_MODE
  | .System => SYS_MODE

def NUM_REGS : Nat := 31
def NUM_STATUS_REGS : Nat := 6

/-- The ARM7TDMI register file (`struct ARM7`): 31 general-purpose
cells, the current status word and the saved status words. -/
structure ARM7 where
  regs : Fin 31 → Register
  cpsr : Register
  spsr : Fin 6 → Register

/-! ### Flag accessors and mutators -/

def ARM7.is_neg_lt (cpu : ARM7) : Bool := cpu.cpsr.read_masked N_MASK != 0
def ARM7.set_neg_lt (cpu : ARM7) : ARM7 := { cpu with cpsr := cpu.cpsr.set N_MASK N_MASK }
def ARM7.reset_neg_lt (cpu : ARM7) : ARM7 := { cpu with cpsr := cpu.cpsr.reset N_MASK N_MASK }

def ARM7.is_zero (cpu : ARM7) : Bool := cpu.cpsr.read_masked Z_MASK != 0
def ARM7.set_zero (cpu : ARM7) : ARM7 := { cpu with cpsr := cpu.cpsr.set Z_MASK Z_MASK }
def ARM7.reset_zero (cpu : ARM7) : ARM7 := { cpu with cpsr := cpu.cpsr.reset Z_MASK Z_MASK }

def ARM7.is_carry (cpu : ARM7) : Bool := cpu.cpsr.read_masked C_MASK != 0
def ARM7.set_carry (cpu : ARM7) : ARM7 := { cpu with cpsr := cpu.cpsr.set C_MASK C_MASK }
def ARM7.reset_carry (cpu : ARM7) : ARM7 := { cpu with cpsr := cpu.cpsr.reset C_MASK C_MASK }

def ARM7.is_overflow (cpu : ARM7) : Bool := cpu.cpsr.read_masked V_MASK != 0
def ARM7.set_overflow (cpu : ARM7) : ARM7 := { cpu with cpsr := cpu.cpsr.set V_MASK V_MASK }
def ARM7.reset_overflow (cpu : ARM7) : ARM7 := { cpu with cpsr := cpu.cpsr.reset V_MASK V_MASK }

def ARM7.is_irq_disable (cpu : ARM7) : Bool := cpu.cpsr.read_masked I_MASK != 0
def ARM7.set_irq_disable (cpu : ARM7) : ARM7 := { cpu with cpsr := cpu.cpsr.set I_MASK I_MASK }
def ARM7.reset_irq_disable (cpu : ARM7) : ARM7 := { cpu with cpsr := cpu.cpsr.reset I_MASK I_MASK }

def ARM7.is_fiq_disable (cpu : ARM7) : Bool := cpu.cpsr.read_masked F_MASK != 0
def ARM7.set_fiq_disable (cpu : ARM7) : ARM7 := { cpu with cpsr := cpu.cpsr.set F_MASK F_MASK }
def ARM7.reset_fiq_disable (cpu : ARM7) : ARM7 := { cpu with cpsr := cpu.cpsr.reset F_MASK F_MASK }

def ARM7.is_thumb (cpu : ARM7) : Bool := cpu.cpsr.read_masked T_MASK != 0
def ARM7.set_thumb (cpu : ARM7) : ARM7 := { cpu with cpsr := cpu.cpsr.set T_MASK T_MASK }
def ARM7.reset_thumb (cpu : ARM7) : ARM7 := { cpu with cpsr := cpu.cpsr.reset T_MASK T_MASK }

/-- `mode()`: decode the 5-bit mode field; the `unreachable!()` branch for
any of the 25 invalid patterns is modelled as `none`. -/
def ARM7.mode (cpu : ARM7) : Option ARM7Mode :=
  let m := cpu.cpsr.read_masked M_MASK
  if m = USER_MODE then some .User
  else if m = FIQ_MODE then some .FIQ
  else if m = IRQ_MODE then some .IRQ
  else if m = SV_MODE then some .Supervisor
  else if m = ABRT_MODE then some .Abort
  else if m = UDEF_MODE then some .Undefined
  else if m = SYS_MODE then some .System
  else none

/-- `set_mode`: `self.cpsr.set(M_MASK, new_mode as u32)`. -/
def ARM7.set_mode (cpu : ARM7) (new_mode : ARM7Mode) : ARM7 :=
  { cpu with cpsr := cpu.cpsr.set M_MASK new_mode.val }

/-- `impl Default for ARM7`: all cells zero, then `set_mode(FIQ)` and
`set_irq_disable()`. -/
def ARM7.defaultCpu : ARM7 :=
  let cpu : ARM7 := { regs := fun _ => ⟨0⟩, cpsr := ⟨0⟩, spsr := fun _ => ⟨0⟩ }
  (cpu.set_mode .FIQ).set_irq_disable

/-- `reg_map_index`: the outer `Option` models the panics (the two
`assert!`s on the register number, `mode()`'s `unreachable!()` and the
inner `unreachable!()`); the inner `Option` is the source's return type
(`None` = register unavailable in Thumb state). -/
def ARM7.reg_map_index (cpu : ARM7) (reg_num : Nat) : Option (Option Nat) :=
  if ¬ reg_num ≤ 15 then none
  else if ¬ cpu.is_thumb then
    if reg_num ≤ 7 ∨ reg_num = 15 then some (some reg_num)
    else
      match cpu.mode with
      | none => none
      | some .User => some (some reg_num)
      | some .System => some (some reg_num)
      | some .FIQ => some (some (reg_num + 16 - 8))
      | some m =>
        if reg_num ≤ 12 then some (some reg_num)
        else
          match m with
          | .IRQ => some (some (reg_num + 27 - 13))
          | .Supervisor => some (some (reg_num + 23 - 13))
          | .Abort => some (some (reg_num + 25 - 13))
          | .Undefined => some (some (reg_num + 29 - 13))
          | _ => none
  else
    if reg_num ≤ 7 then some (some reg_num) else some none

/-! ### Condition codes (`src/gba_cpu/arm_instr.rs`) -/

def COND_SHIFT : Nat := 27

def COND_EQ_MASKED : Nat := 0b0000 <<< COND_SHIFT
def COND_NE_MASKED : Nat := 0b0001 <<< COND_SHIFT
def COND_CS_MASKED : Nat := 0b0010 <<< COND_SHIFT
def COND_CC_MASKED : Nat := 0b0011 <<< COND_SHIFT
def COND_MI_MASKED : Nat := 0b0100 <<< COND_SHIFT
def COND_PL_MASKED : Nat := 0b0101 <<< COND_SHIFT
def COND_VS_MASKED : Nat := 0b0110 <<< COND_SHIFT
def COND_VC_MASKED : Nat := 0b0111 <<< COND_SHIFT
def COND_HI_MASKED : Nat := 0b1000 <<< COND_SHIFT
def COND_LS_MASKED : Nat := 0b1001 <<< COND_SHIFT
def COND_GE_MASKED : Nat := 0b1010 <<< COND_SHIFT
def COND_LT_MASKED : Nat := 0b1011 <<< COND_SHIFT
def COND_GT_MASKED : Nat := 0b1100 <<< COND_SHIFT
def COND_LE_MASKED : Nat := 0b1101 <<< COND_SHIFT
def COND_AL_MASKED : Nat := 0b1110 <<< COND_SHIFT

/-- `enum Cond` (15 named conditions). -/
inductive Cond
  | EQ | NE | CS | CC | MI | PL | VS | VC | HI | LS | GE | LT | GT | LE | AL
deriving DecidableEq, Repr

/-- The discriminant of each `Cond` variant (`Cond::X = COND_X_MASKED`). -/
def Cond.val : Cond → Nat
  | .EQ => COND_EQ_MASKED
  | .NE => COND_NE_MASKED
  | .CS => COND_CS_MASKED
  | .CC => COND_CC_MASKED
  | .MI => COND_MI_MASKED
  | .PL => COND_PL_MASKED
  | .VS => COND_VS_MASKED
  | .VC => COND_VC_MASKED
  | .HI => COND_HI_MASKED
  | .LS => COND_LS_MASKED
  | .GE => COND_GE_MASKED
  | .LT => COND_LT_MASKED
  | .GT => COND_GT_MASKED
  | .LE => COND_LE_MASKED
  | .AL => COND_AL_MASKED

/-- `Cond::decode`: match `instr & COND_MASK` against the 15 masked
constants; the `unreachable!()` fall-through is modelled as `none`. -/
def Cond.decode (instr : Nat) : Option Cond :=
  let x := instr &&& COND_MASK
  if x = COND_EQ_MASKED then some .EQ
  else if x = COND_NE_MASKED then some .NE
  else if x = COND_CS_MASKED then some .CS
  else if x = COND_CC_MASKED then some .CC
  else if x = COND_MI_MASKED then some .MI
  else if x = COND_PL_MASKED then some .PL
  else if x = COND_VS_MASKED then some .VS
  else if x = COND_VC_MASKED then some .VC
  else if x = COND_HI_MASKED then some .HI
  else if x = COND_LS_MASKED then some .LS
  else if x = COND_GE_MASKED then some .GE
  else if x = COND_LT_MASKED then some .LT
  else if x = COND_GT_MASKED then some .GT
  else if x = COND_LE_MASKED then some .LE
  else if x = COND_AL_MASKED then some .AL
  else none

/-- `Cond::is_satisfied`: the function first runs
`assert!(0xF << COND_SHIFT == COND_MASK)`; a failed assertion (panic) is
modelled as `none`, as is the final `unreachable!()` arm. -/
def Cond.is_satisfied (c : Cond) (cpu : ARM7) : Option Bool :=
  if ¬ (0xF <<< COND_SHIFT = COND_MASK) then none
  else
    let x := c.val &&& COND_MASK
    if x = COND_EQ_MASKED then some cpu.is_zero
    else if x = COND_NE_MASKED then some (! cpu.is_zero)
    else if x = COND_CS_MASKED then some cpu.is_carry
    else if x = COND_CC_MASKED then some (! cpu.is_carry)
    else if x = COND_MI_MASKED then some cpu.is_neg_lt
    else if x = COND_PL_MASKED then some (! cpu.is_neg_lt)
    else if x = COND_VS_MASKED then some cpu.is_overflow
    else if x = COND_VC_MASKED then some (! cpu.is_overflow)
    else if x = COND_HI_MASKED then some (cpu.is_carry && ! cpu.is_zero)
    else if x = COND_LS_MASKED then some (! cpu.is_carry && cpu.is_zero)
    else if x = COND_GE_MASKED then some (cpu.is_neg_lt == cpu.is_overflow)
    else if x = COND_LT_MASKED then some (cpu.is_neg_lt != cpu.is_overflow)
    else if x = COND_GT_MASKED then some (cpu.is_zero && (cpu.is_neg_lt == cpu.is_overflow))
    else if x = COND_LE_MASKED then some (! cpu.is_zero || (cpu.is_neg_lt != cpu.is_overflow))
    else if x = COND_AL_MASKED then some true
    else none

/-- Build a CPU whose status word holds exactly the four given condition
flags (all other state zero). -/
def mkFlagsCpu (n z c v : Bool) : ARM7 :=
  { regs := fun _ => ⟨0⟩
    spsr := fun _ => ⟨0⟩
    cpsr := ⟨(if n then N_MASK else 0) + (if z then Z_MASK else 0) +
             (if c then C_MASK else 0) + (if v then V_MASK else 0)⟩ }

/-- Build a CPU in the given execution mode, in ARM or Thumb state
(all other state zero). -/
def mkModeCpu (thumb : Bool) (m : ARM7Mode) : ARM7 :=
  { regs := fun _ => ⟨0⟩
    spsr := fun _ => ⟨0⟩
    cpsr := ⟨m.val + (if thumb then T_MASK else 0)⟩ }

/-- Following the spec's words only: the canonical ARM condition truth
table over the (negative, zero, carry, overflow) flags. -/
def specCondTable (c : Cond) (n z cf v : Bool) : Bool :=
  match c with
  | .EQ => z
  | .NE => ! z
  | .CS => cf
  | .CC => ! cf
  | .MI => n
  | .PL => ! n
  | .VS => v
  | .VC => ! v
  | .HI => cf && ! z
  | .LS => ! (cf && ! z)
  | .GE => n == v
  | .LT => n != v
  | .GT => ! z && (n == v)
  | .LE => z || (n != v)
  | .AL => true

/-- Following the spec's words only (§4.1 table): the physical register
index for each mode × logical register in ARM state.  FIQ aliases
R8–R14 to its private bank 16–22; IRQ, Supervisor, Abort and Undefined
alias R13–R14 to their private pairs 27–28, 23–24, 25–26 and 29–30;
User and System use the base slots. -/
def specRegMapArm (m : ARM7Mode) (r : Fin 16) : Nat :=
  if r.val ≤ 7 ∨ r.val = 15 then r.val
  else
    match m with
    | .User => r.val
    | .System => r.val
    | .FIQ => r.val + 8
    | .IRQ => if r.val ≤ 12 then r.val else r.val + 14
    | .Supervisor => if r.val ≤ 12 then r.val else r.val + 10
    | .Abort => if r.val ≤ 12 then r.val else r.val + 12
    | .Undefined => if r.val ≤ 12 then r.val else r.val + 16

/-! ### Memory regions (`src/gba_mem/mem_regions.rs`) -/

def BYTE_WIDTH : Nat := 8

/-- The seven region types declared by `new_mem_region!`. -/
inductive RegionName
  | sysRom
  | extRam
  | intRam
  | palRam
  | visRam
  | oam
  | pakRom
deriving DecidableEq, Repr

/-- `lo()` for each region (`new_mem_region!` declarations). -/
def RegionName.lo : RegionName → Nat
  | .sysRom => 0x00000000
  | .extRam => 0x02000000
  | .intRam => 0x03000000
  | .palRam => 0x05000000
  | .visRam => 0x06000000
  | .oam => 0x07000000
  | .pakRom => 0x08000000

/-- `hi()` for each region. -/
def RegionName.hi : RegionName → Nat
  | .sysRom => 0x0001FFFF
  | .extRam => 0x0203FFFF
  | .intRam => 0x03007FFF
  | .palRam => 0x050003FF
  | .visRam => 0x06017FFF
  | .oam => 0x070003FF
  | .pakRom => 0x0FFFFFFF

/-- The Rust struct name produced by `stringify!($name)`. -/
def RegionName.regionStr : RegionName → String
  | .sysRom => "SystemRom"
  | .extRam => "ExternRam"
  | .intRam => "InternRam"
  | .palRam => "PalettRam"
  | .visRam => "VisualRam"
  | .oam => "OAM"
  | .pakRom => "PakRom"

/-- `MemoryRegion::len()`: `(hi - lo)/BYTE_WIDTH + 1`. -/
def RegionName.len (r : RegionName) : Nat := (r.hi - r.lo) / BYTE_WIDTH + 1

/-- `MemoryRegion::contains_cmp`. -/
def RegionName.contains_cmp (r : RegionName) (addr : Nat) : Int :=
  if addr < r.lo then -1 else if addr > r.hi then 1 else 0

/-- `MemoryRegion::contains`. -/
def RegionName.contains (r : RegionName) (addr : Nat) : Bool :=
  r.contains_cmp addr == 0

/-- A region instance: its byte buffer, modelled as an index function
plus the buffer length (`mem: Vec<u8>`). -/
structure Region where
  data : Nat → Nat
  size : Nat

/-- `Default::default()`: a zero buffer of `(hi - lo)/BYTE_WIDTH + 1`
bytes. -/
def Region.defaultFor (r : RegionName) : Region :=
  ⟨fun _ => 0, (r.hi - r.lo) / BYTE_WIDTH + 1⟩

/-- `create_from_array`: allocates `(hi - lo)/BYTE_WIDTH + 1` zero
bytes, then `copy_from_slice` (panics, modelled `none`, unless the
source slice has exactly that length). -/
def Region.create_from_array (r : RegionName) (array : List Nat) : Option Region :=
  let memLen := (r.hi - r.lo) / BYTE_WIDTH + 1
  if array.length = memLen then
    some ⟨fun i => array.getD i 0, memLen⟩
  else
    none

/-- The data carried by the "file too big" error message: region name,
file size in bytes, region capacity in bytes. -/
structure FileTooBig where
  region : String
  fileLen : Nat
  capacity : Nat
deriving DecidableEq, Repr

/-- `create_from_file`: errors when the file is longer than
`$name::len()`; otherwise the file's bytes fill the front of a
zero-initialised buffer of `len()` bytes. -/
def Region.create_from_file (r : RegionName) (fileBytes : List Nat) :
    Except FileTooBig Region :=
  let memLen := r.len
  if fileBytes.length > memLen then
    .error ⟨r.regionStr, fileBytes.length, memLen⟩
  else
    .ok ⟨fun i => fileBytes.getD i 0, memLen⟩

/-! Region read/write operations (`def_mem_region_ops!`).  8-bit access
indexes the buffer directly; 16/32-bit access goes through a
little-endian `Cursor`, whose out-of-range `unwrap` panic is modelled
as `none`. -/

/-- `mem_read_as_self` (u8): `self.mem[addr - lo]`. -/
def Region.read8 (reg : Region) (loc : Nat) : Option Nat :=
  if loc < reg.size then some (reg.data loc) else none

/-- `mem_read_as_other` (u16, little-endian). -/
def Region.read16 (reg : Region) (loc : Nat) : Option Nat :=
  if loc + 2 ≤ reg.size then
    some (reg.data loc + 0x100 * reg.data (loc + 1))
  else none

/-- `mem_read_as_other` (u32, little-endian). -/
def Region.read32 (reg : Region) (loc : Nat) : Option Nat :=
  if loc + 4 ≤ reg.size then
    some (reg.data loc + 0x100 * reg.data (loc + 1) +
          0x10000 * reg.data (loc + 2) + 0x1000000 * reg.data (loc + 3))
  else none

/-- `mem_write_as_self` (u8): `self.mem[addr - lo] = val as u8`. -/
def Region.write8 (reg : Region) (loc v : Nat) : Option Region :=
  if loc < reg.size then
    some ⟨Function.update reg.data loc (v % 0x100), reg.size⟩
  else none

/-- `mem_write_as_other` (u16, little-endian). -/
def Region.write16 (reg : Region) (loc v : Nat) : Option Region :=
  if loc + 2 ≤ reg.size then
    some ⟨Function.update (Function.update reg.data loc (v % 0x100))
            (loc + 1) (v / 0x100 % 0x100), reg.size⟩
  else none

/-- `mem_write_as_other` (u32, little-endian). -/
def Region.write32 (reg : Region) (loc v : Nat) : Option Region :=
  if loc + 4 ≤ reg.size then
    some ⟨Function.update (Function.update (Function.update
            (Function.update reg.data loc (v % 0x100))
            (loc + 1) (v / 0x100 % 0x100))
            (loc + 2) (v / 0x10000 % 0x100))
            (loc + 3) (v / 0x1000000 % 0x100), reg.size⟩
  else none

/-! ### Address space dispatcher (`src/gba_mem/mod.rs`) -/

/-- `struct Memory`: one instance of every region. -/
structure Memory where
  sys_rom : Region
  ext_ram : Region
  int_ram : Region
  pal_ram : Region
  vis_ram : Region
  oam : Region
  pak_rom : Region

/-- The region a `Memory::read` resolves an address to: the guard chain
`addr >= R::lo() && addr <= R::hi()` over the seven regions in source
order; the `unreachable!()` fall-through is `none`. -/
def Memory.readRoute (addr : Nat) : Option RegionName :=
  if RegionName.sysRom.lo ≤ addr ∧ addr ≤ RegionName.sysRom.hi then some .sysRom
  else if RegionName.extRam.lo ≤ addr ∧ addr ≤ RegionName.extRam.hi then some .extRam
  else if RegionName.intRam.lo ≤ addr ∧ addr ≤ RegionName.intRam.hi then some .intRam
  else if RegionName.palRam.lo ≤ addr ∧ addr ≤ RegionName.palRam.hi then some .palRam
  else if RegionName.visRam.lo ≤ addr ∧ addr ≤ RegionName.visRam.hi then some .visRam
  else if RegionName.oam.lo ≤ addr ∧ addr ≤ RegionName.oam.hi then some .oam
  else if RegionName.pakRom.lo ≤ addr ∧ addr ≤ RegionName.pakRom.hi then some .pakRom
  else none

/-- The field of `Memory` holding the given region. -/
def Memory.regionOf (m : Memory) : RegionName → Region
  | .sysRom => m.sys_rom
  | .extRam => m.ext_ram
  | .intRam => m.int_ram
  | .palRam => m.pal_ram
  | .visRam => m.vis_ram
  | .oam => m.oam
  | .pakRom => m.pak_rom

/-- `Memory::read::<u8>`: route, then the region's
`MemRead<u8>::read(addr)`, which indexes at `addr - lo`. -/
def Memory.read_u8 (m : Memory) (addr : Nat) : Option Nat :=
  match Memory.readRoute addr with
  | some r => (m.regionOf r).read8 (addr - r.lo)
  | none => none

/-- `Memory::read::<u32>`: route, then the region's little-endian
`MemRead<u32>::read(addr)`. -/
def Memory.read_u32 (m : Memory) (addr : Nat) : Option Nat :=
  match Memory.readRoute addr with
  | some r => (m.regionOf r).read32 (addr - r.lo)
  | none => none

/-- The value types `T` accepted by both `Memory::write16` and
`Memory::write32` (their `where` bounds are identical; `PalettRam`,
`VisualRam` and `OAM` only implement `MemWrite` at 16/32-bit widths).
A value is modelled by its bit pattern, so `f32` is carried as the
4-byte pattern the little-endian serializer writes. -/
inductive ValTy
  | i16 | u16 | i32 | u32 | f32
deriving DecidableEq, Repr

def ValTy.byteWidth : ValTy → Nat
  | .i16 => 2
  | .u16 => 2
  | .i32 => 4
  | .u32 => 4
  | .f32 => 4

/-- The region-level `MemWrite<T>::write` instance for a value type:
`write_i16/u16<LittleEndian>` for the 2-byte types,
`write_i32/u32/f32<LittleEndian>` for the 4-byte ones. -/
def Region.writeVal (reg : Region) (t : ValTy) (loc v : Nat) : Option Region :=
  match t.byteWidth with
  | 2 => reg.write16 loc v
  | _ => reg.write32 loc v

/-- `Memory::write16::<T>`: the guard chain over `ExternRam`,
`InternRam`, `PalettRam`, `VisualRam`, `OAM`, `PakRom` in source order;
the `unreachable!()` fall-through is `none`. -/
def Memory.write16 (m : Memory) (t : ValTy) (addr v : Nat) : Option Memory :=
  if RegionName.extRam.lo ≤ addr ∧ addr ≤ RegionName.extRam.hi then
    (m.ext_ram.writeVal t (addr - RegionName.extRam.lo) v).map
      (fun reg => { m with ext_ram := reg })
  else if RegionName.intRam.lo ≤ addr ∧ addr ≤ RegionName.intRam.hi then
    (m.int_ram.writeVal t (addr - RegionName.intRam.lo) v).map
      (fun reg => { m with int_ram := reg })
  else if RegionName.palRam.lo ≤ addr ∧ addr ≤ RegionName.palRam.hi then
    (m.pal_ram.writeVal t (addr - RegionName.palRam.lo) v).map
      (fun reg => { m with pal_ram := reg })
  else if RegionName.visRam.lo ≤ addr ∧ addr ≤ RegionName.visRam.hi then
    (m.vis_ram.writeVal t (addr - RegionName.visRam.lo) v).map
      (fun reg => { m with vis_ram := reg })
  else if RegionName.oam.lo ≤ addr ∧ addr ≤ RegionName.oam.hi then
    (m.oam.writeVal t (addr - RegionName.oam.lo) v).map
      (fun reg => { m with oam := reg })
  else if RegionName.pakRom.lo ≤ addr ∧ addr ≤ RegionName.pakRom.hi then
    (m.pak_rom.writeVal t (addr - RegionName.pakRom.lo) v).map
      (fun reg => { m with pak_rom := reg })
  else none

/-- `Memory::write32::<T>`: its whole body is
`self.write16::<T>(addr, val)`. -/
def Memory.write32 (m : Memory) (t : ValTy) (addr v : Nat) : Option Memory :=
  m.write16 t addr v

/-- `Memory::new`: boot ROM from the embedded array, cartridge from the
caller's file, every other region `Default::default()`. -/
def mkMemory (sysRom pakRom : Region) : Memory :=
  { sys_rom := sysRom
    ext_ram := Region.defaultFor .extRam
    int_ram := Region.defaultFor .intRam
    pal_ram := Region.defaultFor .palRam
    vis_ram := Region.defaultFor .visRam
    oam := Region.defaultFor .oam
    pak_rom := pakRom }

/-- "Is the address inside any of the seven region ranges" — the OR of
the seven `contains` tests, used to state the dispatch claims. -/
def inAnyRegion (addr : Nat) : Bool :=
  RegionName.sysRom.contains addr || RegionName.extRam.contains addr ||
  RegionName.intRam.contains addr || RegionName.palRam.contains addr ||
  RegionName.visRam.contains addr || RegionName.oam.contains addr ||
  RegionName.pakRom.contains addr

/-! ### Apparatus for stating the flag-mutator frame claim -/

/-- The seven single-bit PSR flags that have `is_*`/`set_*`/`reset_*`
accessors. -/
inductive PSRFlag
  | n | z | c | v | i | f | t
deriving DecidableEq, Repr

/-- The mask constant each flag's mutators use. -/
def PSRFlag.mask : PSRFlag → Nat
  | .n => N_MASK
  | .z => Z_MASK
  | .c => C_MASK
  | .v => V_MASK
  | .i => I_MASK
  | .f => F_MASK
  | .t => T_MASK

/-- The bit position of each flag inside the status word. -/
def PSRFlag.bit : PSRFlag → Nat
  | .n => 31
  | .z => 30
  | .c => 29
  | .v => 28
  | .i => 7
  | .f => 6
  | .t => 5

/-- Dispatch to the source's `set_*` mutator for a flag. -/
def PSRFlag.setOp : PSRFlag → ARM7 → ARM7
  | .n => ARM7.set_neg_lt
  | .z => ARM7.set_zero
  | .c => ARM7.set_carry
  | .v => ARM7.set_overflow
  | .i => ARM7.set_irq_disable
  | .f => ARM7.set_fiq_disable
  | .t => ARM7.set_thumb

/-- Dispatch to the source's `reset_*` mutator for a flag. -/
def PSRFlag.resetOp : PSRFlag → ARM7 → ARM7
  | .n => ARM7.reset_neg_lt
  | .z => ARM7.reset_zero
  | .c => ARM7.reset_carry
  | .v => ARM7.reset_overflow
  | .i => ARM7.reset_irq_disable
  | .f => ARM7.reset_fiq_disable
  | .t => ARM7.reset_thumb

/-! ## Theorems -/

/-- C1: `is_satisfied` never evaluates any condition: its opening
`assert!(0xF << COND_SHIFT == COND_MASK)` fails (with `COND_SHIFT = 27`,
`0xF << 27 = 0x78000000 ≠ 0xF0000000`), so every call panics, while the
canonical truth table assigns a boolean (e.g. NE with all flags clear
is true). -/
theorem is_satisfied_always_panics :
    (∀ (c : Cond) (n z cf v : Bool),
      Cond.is_satisfied c (mkFlagsCpu n z cf v) = none) ∧
    specCondTable Cond.NE false false false false = true := by
  constructor
  · intro c n z cf v
    rfl
  · rfl

/-- C5: `decode`'s match arms are the condition values shifted by 27
while the scrutinee masks the top 4 bits, so the word with top nibble
`0b0001` (NE) decodes to CS, and the word with top nibble `0b1000` (HI)
falls through to `unreachable!()`; only `0b1111` panicking agrees with
the claim. -/
theorem decode_misaligned_with_top_nibble :
    Cond.decode 0x10000000 = some Cond.CS ∧
    Cond.decode 0x80000000 = none ∧
    Cond.decode 0xF0000000 = none :=
  ⟨rfl, rfl, rfl⟩

/-- C2: `set_mode` only ORs the new mode's bits into the status word
(`Register::set` is `|=`), so from the default CPU (mode FIQ,
status word `0x91`) `set_mode(User)` leaves the status word — and hence
`mode()` — completely unchanged instead of switching to User. -/
theorem set_mode_cannot_clear_mode_bits :
    (ARM7.defaultCpu.set_mode ARM7Mode.User).mode = some ARM7Mode.FIQ ∧
    (ARM7.defaultCpu.set_mode ARM7Mode.User).cpsr.val = 0x91 ∧
    ARM7.defaultCpu.mode = some ARM7Mode.FIQ :=
  ⟨rfl, rfl, rfl⟩

/-- C3: every constructor sizes the buffer as `(hi - lo)/BYTE_WIDTH + 1`
with `BYTE_WIDTH = 8`, not `hi - lo + 1`: the boot-ROM region
[0, 0x1FFFF] gets a 16384-byte buffer although its span is 131072
bytes. -/
theorem region_len_is_span_div_eight :
    (∀ r : RegionName, (Region.defaultFor r).size = r.len) ∧
    RegionName.sysRom.len = 16384 ∧
    RegionName.sysRom.hi - RegionName.sysRom.lo + 1 = 131072 := by
  refine ⟨fun r => ?_, rfl, rfl⟩
  cases r <;> rfl

/-- C4: because `PakRom::len()` is `(hi - lo)/8 + 1 = 16777216`,
constructing the cartridge region from a 16 MiB + 1 file — far below
the 128 MiB = 134217728-byte span — already fails, with the error
naming the region, the file size and a 16 MiB capacity. -/
theorem pak_rom_rejects_16mib_file :
    RegionName.pakRom.len = 16777216 ∧
    16777217 ≤ 134217728 ∧
    Region.create_from_file RegionName.pakRom (List.replicate 16777217 0) =
      Except.error ⟨"PakRom", 16777217, 16777216⟩ := by
  refine ⟨rfl, by norm_num, ?_⟩
  have hlen : (List.replicate 16777217 (0 : Nat)).length = 16777217 :=
    List.length_replicate ..
  have hcap : RegionName.pakRom.len = 16777216 := rfl
  simp only [Region.create_from_file, hlen, hcap, RegionName.regionStr]
  norm_num

/-- C6: over every mode and every logical register 0–15,
`reg_map_index` returns exactly the §4.1 physical index in ARM state,
and in Thumb state maps R0–R7 identically and leaves 8–15
unavailable. -/
theorem reg_map_index_matches_spec_table :
    ∀ (m : ARM7Mode) (r : Fin 16),
      (mkModeCpu false m).reg_map_index r.val = some (some (specRegMapArm m r)) ∧
      (mkModeCpu true m).reg_map_index r.val =
        some (if r.val ≤ 7 then some r.val else none) := by
  intro m r
  revert r
  cases m <;> decide

/-- `contains` holds exactly on the inclusive bounds. -/
theorem contains_iff (r : RegionName) (addr : Nat) :
    r.contains addr = true ↔ (r.lo ≤ addr ∧ addr ≤ r.hi) := by
  unfold RegionName.contains RegionName.contains_cmp
  split_ifs with h1 h2 <;> simp <;> omega

/-- `contains` fails exactly off the inclusive bounds. -/
theorem contains_false_iff (r : RegionName) (addr : Nat) :
    r.contains addr = false ↔ ¬(r.lo ≤ addr ∧ addr ≤ r.hi) := by
  rw [← contains_iff r addr]
  simp

/-- C7: the dispatch of `Memory::read` hits `unreachable!()` exactly on
addresses outside all seven region ranges, and an address inside a
region's range is routed to that region (the ranges are disjoint, so
the routed region is unique). -/
theorem read_routes_to_unique_region :
    ∀ addr : Nat,
      (Memory.readRoute addr = none ↔ inAnyRegion addr = false) ∧
      (∀ r : RegionName, r.contains addr = true → Memory.readRoute addr = some r) := by
  intro addr
  constructor
  · simp only [Memory.readRoute, inAnyRegion, Bool.or_eq_false_iff,
      contains_false_iff, RegionName.lo, RegionName.hi]
    split_ifs <;> simp_all
  · intro r hr
    rw [contains_iff] at hr
    cases r <;>
      simp only [RegionName.lo, RegionName.hi] at hr <;>
      simp only [Memory.readRoute, RegionName.lo, RegionName.hi] <;>
      split_ifs <;> first
        | rfl
        | omega

/-- C7 witness: an address in no region is unroutable, and
`0x02000000` routes to external work RAM. -/
theorem read_routes_to_unique_region_witness :
    Memory.readRoute 0x04000000 = none ∧
    Memory.readRoute 0x02000000 = some RegionName.extRam :=
  ⟨(read_routes_to_unique_region 0x04000000).1.mpr (by decide),
   (read_routes_to_unique_region 0x02000000).2 RegionName.extRam (by decide)⟩

/-- Helper: ORing in a single bit leaves every other bit unchanged. -/
theorem testBit_or_two_pow_ne (x b j : Nat) (h : j ≠ b) :
    (x ||| 2 ^ b).testBit j = x.testBit j := by
  have hb : (2 ^ b).testBit j = false := by
    rw [Nat.testBit_two_pow]
    exact decide_eq_false fun hh => h hh.symm
  rw [Nat.testBit_or, hb, Bool.or_false]

/-- Helper: ANDing with the 32-bit complement of a single bit below 32
leaves every other bit of a 32-bit value unchanged. -/
theorem testBit_and_compl_two_pow_ne (x b j : Nat) (hx : x < 2 ^ 32)
    (h : j ≠ b) :
    (x &&& (0xFFFFFFFF ^^^ 2 ^ b)).testBit j = x.testBit j := by
  have hm : (0xFFFFFFFF : Nat) = 2 ^ 32 - 1 := by norm_num
  have hb : (2 ^ b).testBit j = false := by
    rw [Nat.testBit_two_pow]
    exact decide_eq_false fun hh => h hh.symm
  rw [Nat.testBit_and, Nat.testBit_xor, hm, Nat.testBit_two_pow_sub_one, hb]
  by_cases hj : j < 32
  · simp [hj]
  · have hx0 : x.testBit j = false :=
      Nat.testBit_eq_false_of_lt
        (lt_of_lt_of_le hx (Nat.pow_le_pow_right (by norm_num) (Nat.le_of_not_lt hj)))
    simp [hj, hx0]

/-- Helper: AND is idempotent. -/
theorem land_self_eq (y : Nat) : y &&& y = y :=
  Nat.eq_of_testBit_eq fun i => by rw [Nat.testBit_and, Bool.and_self]

/-- Helper: `Register::set(mask, mask)` for a single-bit mask changes no
other bit. -/
theorem register_set_single_bit (r : Register) (mask b j : Nat)
    (hm : mask = 2 ^ b) (hj : j ≠ b) :
    (r.set mask mask).val.testBit j = r.val.testBit j := by
  subst hm
  show (r.val ||| (2 ^ b &&& 2 ^ b)).testBit j = _
  rw [land_self_eq]
  exact testBit_or_two_pow_ne r.val b j hj

/-- Helper: `Register::reset(mask, mask)` for a single-bit mask changes
no other bit of a 32-bit value. -/
theorem register_reset_single_bit (r : Register) (mask b j : Nat)
    (hm : mask = 2 ^ b) (hx : r.val < 2 ^ 32) (hj : j ≠ b) :
    (r.reset mask mask).val.testBit j = r.val.testBit j := by
  subst hm
  show (r.val &&& (0xFFFFFFFF ^^^ (2 ^ b &&& 2 ^ b))).testBit j = _
  rw [land_self_eq]
  exact testBit_and_compl_two_pow_ne r.val b j hx hj

/-- C8: for each of the seven flags, the `set_*` and `reset_*` mutators
change at most that flag's bit of the status word — every other bit
(the other flags, the mode field, the interrupt masks) keeps its value
— and leave the general and saved registers untouched. -/
theorem flag_mutators_touch_only_their_bit :
    ∀ (fl : PSRFlag) (cpu : ARM7) (j : Nat),
      cpu.cpsr.val < 2 ^ 32 → j ≠ fl.bit →
      ((fl.setOp cpu).cpsr.val.testBit j = cpu.cpsr.val.testBit j ∧
       (fl.resetOp cpu).cpsr.val.testBit j = cpu.cpsr.val.testBit j) ∧
      ((fl.setOp cpu).regs = cpu.regs ∧ (fl.setOp cpu).spsr = cpu.spsr) ∧
      ((fl.resetOp cpu).regs = cpu.regs ∧ (fl.resetOp cpu).spsr = cpu.spsr) := by
  intro fl cpu j hx hj
  cases fl <;>
    exact ⟨⟨register_set_single_bit cpu.cpsr _ _ j (by decide) hj,
            register_reset_single_bit cpu.cpsr _ _ j (by decide) hx hj⟩,
           ⟨rfl, rfl⟩, ⟨rfl, rfl⟩⟩

/-- C8 witness: the zero-flag mutators on the default CPU leave bit 7
(the IRQ-disable bit) and the register files unchanged. -/
theorem flag_mutators_touch_only_their_bit_witness :
    ((PSRFlag.z.setOp ARM7.defaultCpu).cpsr.val.testBit 7 =
        ARM7.defaultCpu.cpsr.val.testBit 7 ∧
     (PSRFlag.z.resetOp ARM7.defaultCpu).cpsr.val.testBit 7 =
        ARM7.defaultCpu.cpsr.val.testBit 7) ∧
    ((PSRFlag.z.setOp ARM7.defaultCpu).regs = ARM7.defaultCpu.regs ∧
     (PSRFlag.z.setOp ARM7.defaultCpu).spsr = ARM7.defaultCpu.spsr) ∧
    ((PSRFlag.z.resetOp ARM7.defaultCpu).regs = ARM7.defaultCpu.regs ∧
     (PSRFlag.z.resetOp ARM7.defaultCpu).spsr = ARM7.defaultCpu.spsr) :=
  flag_mutators_touch_only_their_bit PSRFlag.z ARM7.defaultCpu 7
    (by decide) (by decide)

/-- C9: after `write32(0x02000000, 0xDEADBEEF)` on a fresh memory, an
8-bit read at that address yields `0xEF` and a 32-bit read yields
`0xDEADBEEF` — the multi-byte access is little-endian. -/
theorem write32_read_roundtrip_extram :
    ∀ (sysRom pakRom : Region),
      ((mkMemory sysRom pakRom).write32 ValTy.u32 0x02000000 0xDEADBEEF).bind
          (fun mm => mm.read_u8 0x02000000) = some 0xEF ∧
      ((mkMemory sysRom pakRom).write32 ValTy.u32 0x02000000 0xDEADBEEF).bind
          (fun mm => mm.read_u32 0x02000000) = some 0xDEADBEEF := by
  intro sysRom pakRom
  constructor <;>
  · simp only [mkMemory, Memory.write32, Memory.write16, Region.writeVal,
      ValTy.byteWidth, Region.write32, Region.defaultFor, RegionName.lo,
      RegionName.hi, BYTE_WIDTH, Memory.read_u8, Memory.read_u32,
      Memory.readRoute, Memory.regionOf, Region.read8, Region.read32]
    norm_num [Function.update]

/-- C10: `Memory::write32`'s body is exactly `self.write16::<T>(addr,
val)`, so for every accepted value type, address and value the two
entry points perform the same state update. -/
theorem write32_extensionally_eq_write16 :
    ∀ (m : Memory) (t : ValTy) (addr v : Nat),
      m.write32 t addr v = m.write16 t addr v := by
  intro m t addr v
  rfl

end GBA
